import Mathlib

/-!
Verification of the hjmh repository (src/lunes_login.py and src/podl.py):
a Playwright-driven login flow gated by a Cloudflare Turnstile challenge.

The embedding models time in whole seconds. A page is a time-indexed trace
of the observations the scripts make (is_closed, url, presence of the
hidden token input, the token input value). Waits that the code bounds by
an explicit timeout are modelled as fuel-based recursion, with the number
of consumed seconds returned alongside the result. A raised exception that
escapes a function is modelled as the error result; a normal return carries
the optional token.

All definitions are translated from the Python source; doc comments cite
the source lines they embed.
-/

/-- Boolean test that the character list begins with the given needle.
Helper for the Python substring test. -/
def listStartsWith : List Char → List Char → Bool
  | [], _ => true
  | _ :: _, [] => false
  | a :: as, b :: bs => a == b && listStartsWith as bs

/-- Boolean test that the needle occurs as a contiguous segment of the
haystack list. Helper for the Python substring test. -/
def listHasSeg (needle : List Char) : List Char → Bool
  | [] => needle.isEmpty
  | b :: bs => listStartsWith needle (b :: bs) || listHasSeg needle bs

/-- Python substring containment: the translation of the expression
`needle in hay` on strings (used by both scripts as
`"/login" not in current_url`). -/
def strContainsSub (hay needle : String) : Bool :=
  listHasSeg needle.data hay.data

/-- The login route segment tested throughout both scripts
(lunes_login.py lines 51, 199; podl.py lines 60, 253). -/
def loginSeg : String := "/login"

/-- A page trace: the observations the scripts can make of the page at each
whole second since the challenge wait began.
`closed t` is `page.is_closed()`, `url t` is `page.url`, `attached t` says
whether the hidden input `cf-turnstile-response` is attached to the DOM,
and `tokenVal t` is the value `page.input_value` reads from it. -/
structure PageTrace where
  closed : Nat → Bool
  url : Nat → String
  attached : Nat → Bool
  tokenVal : Nat → String

/-- How one iteration of the polling loop exits, or that the loop ran out
of iterations (lunes_login.py lines 45-64; podl.py lines 54-72). -/
inductive PollExit where
  | closedE
  | navE
  | tokenE (tok : String)
  | expiredE
deriving DecidableEq

/-- The result of the whole challenge wait: `okTok` is a normal return of
an optional token; `err` is an exception escaping the function. -/
inductive TSResult where
  | okTok (tok : Option String)
  | err
deriving DecidableEq

/-- The effective timeout in milliseconds after the CI adjustment:
`timeout = min(timeout * 2, 180000)` when `IS_CI`, the base value
otherwise (lunes_login.py lines 31-33; podl.py lines 30-32). -/
def effectiveTimeout (is_ci : Bool) (timeoutMs : Nat) : Nat :=
  if is_ci then min (timeoutMs * 2) 180000 else timeoutMs

/-- The polling loop shared verbatim by the two scripts
(lunes_login.py lines 45-64; podl.py lines 54-72).
`t` is the current second, the fuel is the loop bound `range(...)`.
Each iteration checks, in source order: `page.is_closed()`, then
`"/login" not in current_url`, then whether the token input value is
non-empty; otherwise it sleeps one second and continues. The returned
number counts the seconds consumed (one per completed iteration). -/
def pollLoop (tr : PageTrace) : Nat → Nat → PollExit × Nat
  | _, 0 => (PollExit.expiredE, 0)
  | t, fuel + 1 =>
    if tr.closed t then (PollExit.closedE, 0)
    else if strContainsSub (tr.url t) loginSeg = false then (PollExit.navE, 0)
    else if tr.tokenVal t ≠ "" then (PollExit.tokenE (tr.tokenVal t), 0)
    else
      let r := pollLoop tr (t + 1) fuel
      (r.1, r.2 + 1)

/-- The bounded `wait_for_selector(..., state="attached", timeout=...)`
call, discretised to seconds: scan from second `t` for at most `fuel`
seconds for the input to be attached, returning the second at which it
was first seen (lunes_login.py lines 36-40; podl.py lines 42-46). -/
def selectorScan (tr : PageTrace) : Nat → Nat → Option Nat
  | _, 0 => none
  | t, fuel + 1 => if tr.attached t then some t else selectorScan tr (t + 1) fuel

/-- How a loop exit maps to the value of the wait: the page-closed and
navigated-away exits return `None`, a resolved token is returned as is,
and loop exhaustion raises `TimeoutError`
(lunes_login.py lines 46-59 and 65). -/
def mapExit : PollExit → TSResult
  | PollExit.closedE => TSResult.okTok none
  | PollExit.navE => TSResult.okTok none
  | PollExit.tokenE s => TSResult.okTok (some s)
  | PollExit.expiredE => TSResult.err

/-- wait_for_turnstile_token of lunes_login.py (lines 26-69).
The CI doubling is applied, `wait_for_selector` waits for the token input
with the full effective timeout, a random grace sleep of `g` seconds
(`random.uniform(1, 3)`) follows, and then the loop polls
`int(timeout / 1000)` times. Loop exhaustion raises `TimeoutError`, and
the `except` clause (lines 67-69) re-raises every exception, so both the
selector timeout and the expiry escape as errors in every environment.
The second component is the number of seconds elapsed inside the call. -/
def lunesWait (is_ci : Bool) (timeoutMs g : Nat) (tr : PageTrace) : TSResult × Nat :=
  let secs := effectiveTimeout is_ci timeoutMs / 1000
  match selectorScan tr 0 (secs + 1) with
  | none => (TSResult.err, secs)
  | some a =>
    let r := pollLoop tr (a + g) secs
    (mapExit r.1, a + g + r.2)

/-- wait_for_turnstile_token of podl.py (lines 25-95).
The CI doubling is applied to the `timeout` variable, then the script
first reads `locator(...).count()` and returns `None` at once when the
input is absent (lines 36-40); otherwise `wait_for_selector` runs with a
fixed 10000 ms timeout (lines 42-46), the grace sleep of `g` seconds
follows, and the loop polls `max_wait = 30 if IS_CI else int(timeout/1000)`
times (line 52). Expiry returns `None` under CI and raises otherwise
(lines 74-79); the `except TimeoutError` handler (lines 81-88) turns the
selector timeout into `None` under CI and re-raises otherwise. -/
def podlWait (is_ci : Bool) (timeoutMs g : Nat) (tr : PageTrace) : TSResult × Nat :=
  let secs := effectiveTimeout is_ci timeoutMs / 1000
  if tr.attached 0 = false then (TSResult.okTok none, 0)
  else
    match selectorScan tr 0 (10 + 1) with
    | none => if is_ci then (TSResult.okTok none, 10) else (TSResult.err, 10)
    | some a =>
      let maxWait := if is_ci then 30 else secs
      let r := pollLoop tr (a + g) maxWait
      match r.1 with
      | PollExit.expiredE =>
        if is_ci then (TSResult.okTok none, a + g + r.2) else (TSResult.err, a + g + r.2)
      | e => (mapExit e, a + g + r.2)

/-- An exit condition of the polling loop holds at second `t`: the page is
closed, or the url no longer contains the login segment, or the token
input value is non-empty. -/
def exitsAt (tr : PageTrace) (t : Nat) : Prop :=
  tr.closed t = true ∨ strContainsSub (tr.url t) loginSeg = false ∨ tr.tokenVal t ≠ ""

instance (tr : PageTrace) (t : Nat) : Decidable (exitsAt tr t) := by
  unfold exitsAt
  infer_instance

/-- The exit the loop takes at a second where an exit condition holds,
following the source order of the three checks. -/
def exitValueAt (tr : PageTrace) (t : Nat) : PollExit :=
  if tr.closed t then PollExit.closedE
  else if strContainsSub (tr.url t) loginSeg = false then PollExit.navE
  else PollExit.tokenE (tr.tokenVal t)

/-- A trace on which the challenge stays pending forever: the page stays
open on the login route, the token input is attached but never filled. -/
def trPending : PageTrace :=
  { closed := fun _ => false
    url := fun _ => "https://x/login"
    attached := fun _ => true
    tokenVal := fun _ => "" }

/-- A trace on which the token input never exists in the DOM. -/
def trAbsent : PageTrace :=
  { closed := fun _ => false
    url := fun _ => "https://x/login"
    attached := fun _ => false
    tokenVal := fun _ => "" }

/-- A trace on which the token input only attaches at second 59 and the
token never resolves. -/
def trLate : PageTrace :=
  { closed := fun _ => false
    url := fun _ => "https://x/login"
    attached := fun t => decide (59 ≤ t)
    tokenVal := fun _ => "" }

/-- A trace on which the token resolves at second 40. -/
def trTok40 : PageTrace :=
  { closed := fun _ => false
    url := fun _ => "https://x/login"
    attached := fun _ => true
    tokenVal := fun t => if 40 ≤ t then "tok" else "" }

/-- A trace on which the token resolves at second 5 exactly. -/
def trTokenAt5 : PageTrace :=
  { closed := fun _ => false
    url := fun _ => "https://x/login"
    attached := fun _ => true
    tokenVal := fun t => if t = 5 then "tok123" else "" }

/-- The observable effect of one run of the submission gate: whether a
click on the submit control was eventually attempted, and how many
enable-polls (one-second sleeps followed by re-reading the disabled
attribute) were performed before that decision. -/
structure GateLog where
  clicked : Bool
  enablePolls : Nat
deriving DecidableEq

/-- The enable-wait of podl.py (lines 219-224): each iteration sleeps one
second and re-reads the disabled attribute at the next second; a falsy
read breaks out of the loop. Returns whether the control was seen enabled
and the number of reads performed. `d t` is the Python truthiness of
`get_attribute('disabled')` at second `t`. -/
def enableScan (d : Nat → Bool) : Nat → Nat → Bool × Nat
  | _, 0 => (false, 0)
  | t, fuel + 1 =>
    if d (t + 1) then
      let r := enableScan d (t + 1) fuel
      (r.1, r.2 + 1)
    else (true, 1)

/-- The submission gate of podl.py (lines 206-238): read the disabled
attribute at second 0 (a raising read is caught and the click proceeds,
lines 229-230); if the control is disabled and `IS_CI`, poll up to 10
times for it to become enabled and, if it never does, close the browser
and return `None` without clicking (lines 219-228); if the control is
disabled outside CI, only a warning is printed and the click proceeds. -/
def podlGate (is_ci attrRaises : Bool) (d : Nat → Bool) : GateLog :=
  if attrRaises then { clicked := true, enablePolls := 0 }
  else if d 0 then
    if is_ci then
      let r := enableScan d 0 10
      if r.1 then { clicked := true, enablePolls := r.2 }
      else { clicked := false, enablePolls := r.2 }
    else { clicked := true, enablePolls := 0 }
  else { clicked := true, enablePolls := 0 }

/-- The submission step of lunes_login.py (lines 182-184): the script
locates the submit control and clicks it. No read of the disabled
attribute and no enable-wait exist in this script, so the parameters are
ignored exactly as the code ignores the control state. -/
def lunesGate (_is_ci : Bool) (_d : Nat → Bool) : GateLog :=
  { clicked := true, enablePolls := 0 }

/-- The phase of the login body of lunes_login.py at which an injected
exception is raised: browser launch (lines 86-108), context creation
(lines 110-114), trace start (lines 117-122), page creation (line 127),
or any of the interaction steps from navigation through submission
(lines 130-192). -/
inductive FlowStep where
  | launch
  | newContext
  | traceStart
  | newPage
  | interact
deriving DecidableEq

/-- Whether the `browser` variable is non-None when the body raises at the
given step (it is assigned by the launch, lines 89 and 104). -/
def browserAt : FlowStep → Bool
  | FlowStep.launch => false
  | _ => true

/-- Whether the `context` variable is non-None when the body raises at the
given step (assigned at line 110). -/
def contextAt : FlowStep → Bool
  | FlowStep.launch => false
  | FlowStep.newContext => false
  | _ => true

/-- Whether the `page` variable is non-None when the body raises at the
given step (assigned at line 127). -/
def pageAt : FlowStep → Bool
  | FlowStep.interact => true
  | _ => false

/-- One environment for a run of lunes_login.py login() (lines 72-301):
which step of the body raises (if any), the url observed after
submission, the cookie jar of the context, whether the page reports
itself closed when the except-handler runs, and which of the terminal
and cleanup steps themselves raise. -/
structure LoginEnv where
  is_ci : Bool
  failStep : Option FlowStep
  urlAfterSubmit : String
  cookieJar : List String
  pageClosedInCleanup : Bool
  termCookiesRaises : Bool
  termShotRaises : Bool
  termTraceRaises : Bool
  termCloseRaises : Bool
  cleanShotRaises : Bool
  cleanTraceRaises : Bool
  cleanCloseRaises : Bool

/-- What happened inside the except-handler cleanup of lunes_login.py
(lines 284-299): which of the three steps were reached, and whether the
close completed. -/
structure CleanupLog where
  shotTried : Bool
  traceTried : Bool
  closeTried : Bool
  closeDone : Bool
deriving DecidableEq

/-- The except-handler cleanup of lunes_login.py (lines 284-299): one try
block runs `if page and not page.is_closed(): screenshot`, then
`if context: tracing.stop`, then `if browser: browser.close`, and a
single `except` swallows whatever any of them raises — so a raise in one
step skips the steps after it. -/
def exceptCleanup (hasPage pageClosed hasContext hasBrowser shotRaises traceRaises closeRaises :
    Bool) : CleanupLog :=
  let shotTried := hasPage && !pageClosed
  if shotTried && shotRaises then
    { shotTried := shotTried, traceTried := false, closeTried := false, closeDone := false }
  else if hasContext && traceRaises then
    { shotTried := shotTried, traceTried := hasContext, closeTried := false, closeDone := false }
  else
    { shotTried := shotTried, traceTried := hasContext, closeTried := hasBrowser
      closeDone := hasBrowser && !closeRaises }

/-- The observable summary of one run of login(): the returned value
(cookies or None), how many values were returned (every control path of
the function returns exactly once), and how many `browser.close()` calls
were attempted and completed. -/
structure RunLog where
  outcome : Option (List String)
  outcomes : Nat
  closeTried : Nat
  closeDone : Nat
deriving DecidableEq

/-- The run summary when the body raises and control reaches the except
handler of lunes_login.py (lines 278-301): the handler cleanup runs with
the handles present at the raise, and the function returns `None`.
`extraTried` counts a close attempted (and failed) on the terminal path
before the raise. -/
def errorReturn (env : LoginEnv) (hasPage hasContext hasBrowser : Bool)
    (extraTried : Nat) : RunLog :=
  let c := exceptCleanup hasPage env.pageClosedInCleanup hasContext hasBrowser
    env.cleanShotRaises env.cleanTraceRaises env.cleanCloseRaises
  { outcome := none
    outcomes := 1
    closeTried := extraTried + (if c.closeTried then 1 else 0)
    closeDone := if c.closeDone then 1 else 0 }

/-- login() of lunes_login.py (lines 72-301). If the body raises at some
step, the except handler runs and the function returns `None`. Otherwise
the classifier (line 199) checks `"/login" not in current_url`: on
success the cookies are read (line 205), a screenshot is taken (208), the
trace is stopped (232), the browser is closed (240) and the cookies are
returned (241); on failure a screenshot is taken (247), the error-probe
runs inside its own swallowed try (251-266), the trace is stopped (270),
the browser is closed (275) and `None` is returned (276). A raise in any
of those terminal steps transfers control to the except handler; the
local-only server-card block (212-228) swallows its own exceptions and
does not affect the summary. -/
def lunesLogin (env : LoginEnv) : RunLog :=
  match env.failStep with
  | some s => errorReturn env (pageAt s) (contextAt s) (browserAt s) 0
  | none =>
    if strContainsSub env.urlAfterSubmit loginSeg = false then
      if env.termCookiesRaises then errorReturn env true true true 0
      else if env.termShotRaises then errorReturn env true true true 0
      else if env.termTraceRaises then errorReturn env true true true 0
      else if env.termCloseRaises then errorReturn env true true true 1
      else { outcome := some env.cookieJar, outcomes := 1, closeTried := 1, closeDone := 1 }
    else
      if env.termShotRaises then errorReturn env true true true 0
      else if env.termTraceRaises then errorReturn env true true true 0
      else if env.termCloseRaises then errorReturn env true true true 1
      else { outcome := none, outcomes := 1, closeTried := 1, closeDone := 1 }

/-- Python truthiness of the value main() receives from login(): `None`
and the empty list are falsy, a non-empty list is truthy. -/
def optTruthy : Option (List String) → Bool
  | none => false
  | some l => !l.isEmpty

/-- main() of lunes_login.py (lines 304-376): missing email or password
returns 1 before any browser work (lines 307-325); otherwise the run is
reported by `if cookies:` — exit 0 when the returned value is truthy,
exit 1 otherwise (lines 338-376). -/
def lunesMain (email password : String) (loginResult : Option (List String)) : Nat :=
  if email == "" || password == "" then 1
  else if optTruthy loginResult then 0 else 1

/-- An environment whose body raises during interaction and whose
error-path screenshot itself raises, with every other step well-behaved. -/
def badCleanupEnv : LoginEnv :=
  { is_ci := false
    failStep := some FlowStep.interact
    urlAfterSubmit := "https://x/login"
    cookieJar := []
    pageClosedInCleanup := false
    termCookiesRaises := false
    termShotRaises := false
    termTraceRaises := false
    termCloseRaises := false
    cleanShotRaises := true
    cleanTraceRaises := false
    cleanCloseRaises := false }

/-- An environment for a clean successful run. -/
def okRunEnv : LoginEnv :=
  { is_ci := true
    failStep := none
    urlAfterSubmit := "https://x/dash"
    cookieJar := ["sid=1"]
    pageClosedInCleanup := false
    termCookiesRaises := false
    termShotRaises := false
    termTraceRaises := false
    termCloseRaises := false
    cleanShotRaises := false
    cleanTraceRaises := false
    cleanCloseRaises := false }


/-- The poll loop consumes at most its fuel many seconds. -/
lemma pollLoop_snd_le (tr : PageTrace) : ∀ fuel t, (pollLoop tr t fuel).2 ≤ fuel := by
  intro fuel
  induction fuel with
  | zero => intro t; simp [pollLoop]
  | succ f ih =>
    intro t
    simp only [pollLoop]
    split_ifs
    · simp
    · simp
    · simp
    · simpa using Nat.succ_le_succ (ih (t + 1))

/-- On a trace where no exit condition ever holds, the poll loop runs its
full budget and expires. -/
lemma pollLoop_expired (tr : PageTrace) (hnoexit : ∀ t, ¬ exitsAt tr t) :
    ∀ fuel t, pollLoop tr t fuel = (PollExit.expiredE, fuel) := by
  intro fuel
  induction fuel with
  | zero => intro t; simp [pollLoop]
  | succ f ih =>
    intro t
    have h := hnoexit t
    simp only [exitsAt, not_or, Bool.not_eq_true, Bool.not_eq_false, ne_eq, not_not] at h
    obtain ⟨h1, h2, h3⟩ := h
    simp [pollLoop, h1, h2, h3, ih (t + 1)]

/-- The poll loop stops at the first second at which an exit condition
holds, taking the exit the source order of the checks dictates. -/
lemma pollLoop_first (tr : PageTrace) : ∀ i g fuel, i < fuel →
    (∀ j, j < i → ¬ exitsAt tr (g + j)) → exitsAt tr (g + i) →
    pollLoop tr g fuel = (exitValueAt tr (g + i), i) := by
  intro i
  induction i with
  | zero =>
    intro g fuel hfuel _ hex
    obtain ⟨f, rfl⟩ : ∃ f, fuel = f + 1 := ⟨fuel - 1, by omega⟩
    rw [Nat.add_zero] at hex
    by_cases h1 : tr.closed g = true
    · simp [pollLoop, exitValueAt, h1]
    · by_cases h2 : strContainsSub (tr.url g) loginSeg = false
      · simp [pollLoop, exitValueAt, h1, h2]
      · have h3 : tr.tokenVal g ≠ "" := by
          rcases hex with h | h | h
          · exact absurd h h1
          · exact absurd h h2
          · exact h
        simp [pollLoop, exitValueAt, h1, h2, h3]
  | succ i ih =>
    intro g fuel hfuel hbef hex
    obtain ⟨f, rfl⟩ : ∃ f, fuel = f + 1 := ⟨fuel - 1, by omega⟩
    have h0 := hbef 0 (Nat.succ_pos i)
    rw [Nat.add_zero] at h0
    simp only [exitsAt, not_or, Bool.not_eq_true, Bool.not_eq_false, ne_eq, not_not] at h0
    obtain ⟨h1, h2, h3⟩ := h0
    have hbef2 : ∀ j, j < i → ¬ exitsAt tr (g + 1 + j) := by
      intro j hj
      have hb := hbef (j + 1) (by omega)
      have e : g + (j + 1) = g + 1 + j := by omega
      rwa [e] at hb
    have hex2 : exitsAt tr (g + 1 + i) := by
      have e : g + (i + 1) = g + 1 + i := by omega
      rwa [e] at hex
    have hres := ih (g + 1) f (by omega) hbef2 hex2
    have e : g + 1 + i = g + (i + 1) := by omega
    rw [e] at hres
    simp [pollLoop, h1, h2, h3, hres]

/-- A successful selector scan reports a second within the scanned range. -/
lemma selectorScan_some_lt (tr : PageTrace) :
    ∀ fuel t a, selectorScan tr t fuel = some a → a < t + fuel := by
  intro fuel
  induction fuel with
  | zero => intro t a h; simp [selectorScan] at h
  | succ f ih =>
    intro t a h
    rw [selectorScan] at h
    by_cases hat : tr.attached t = true
    · rw [if_pos hat] at h
      simp at h
      omega
    · rw [if_neg hat] at h
      have := ih (t + 1) a h
      omega

/-- On a trace where the input is never attached, every selector scan
times out. -/
lemma selectorScan_noneAll (tr : PageTrace) (habs : ∀ t, tr.attached t = false) :
    ∀ fuel t, selectorScan tr t fuel = none := by
  intro fuel
  induction fuel with
  | zero => intro t; simp [selectorScan]
  | succ f ih => intro t; simp [selectorScan, habs t, ih (t + 1)]

/-- If the input is attached at second 0, the selector scan resolves at
second 0. -/
lemma selectorScan_zero (tr : PageTrace) (h : tr.attached 0 = true) (f : Nat) :
    selectorScan tr 0 (f + 1) = some 0 := by
  simp [selectorScan, h]

/-- If the control stays disabled throughout the scanned window, the
enable scan performs all its reads and reports no enablement. -/
lemma enableScan_all (d : Nat → Bool) :
    ∀ fuel t, (∀ j, t < j → j ≤ t + fuel → d j = true) →
    enableScan d t fuel = (false, fuel) := by
  intro fuel
  induction fuel with
  | zero => intro t _; simp [enableScan]
  | succ f ih =>
    intro t hall
    have h1 : d (t + 1) = true := hall (t + 1) (by omega) (by omega)
    have h2 := ih (t + 1) (fun j hj1 hj2 => hall j (by omega) (by omega))
    simp [enableScan, h1, h2]

/-- On the forever-pending trace no exit condition ever holds. -/
lemma trPending_noexit : ∀ t, ¬ exitsAt trPending t := by
  intro t h
  rcases h with h | h | h
  · simp [trPending] at h
  · simp only [trPending] at h
    exact absurd h (by decide)
  · exact h rfl

/-- Claim C2 (corrected). The timeout variable is set to
min(2 * base, 180000 ms) in unattended mode (base 60000 becomes 120000,
base 120000 is capped at 180000) and is the base unchanged in interactive
mode, in both scripts. In lunes_login this doubled value is the effective
challenge-wait deadline (it bounds both the selector wait and the poll
budget): on a forever-pending trace the lunes wait spends its grace sleep
plus the full doubled budget. In podl, however, the unattended poll
budget is fixed at 30 seconds regardless of the doubled value, so the
doubled value is not podl's effective deadline. -/
theorem c2_theorem : ∀ (base g : Nat),
    effectiveTimeout true base = min (2 * base) 180000
    ∧ effectiveTimeout false base = base
    ∧ effectiveTimeout true 60000 = 120000
    ∧ effectiveTimeout true 120000 = 180000
    ∧ (lunesWait true base g trPending).2 = g + effectiveTimeout true base / 1000
    ∧ (podlWait true base g trPending).2 = g + 30 := by
  intro base g
  have hsel : ∀ f, selectorScan trPending 0 (f + 1) = some 0 :=
    selectorScan_zero trPending rfl
  have hsel11 : selectorScan trPending 0 11 = some 0 := hsel 10
  have hpoll := pollLoop_expired trPending trPending_noexit
  refine ⟨?_, ?_, by decide, by decide, ?_, ?_⟩
  · simp [effectiveTimeout, Nat.mul_comm]
  · simp [effectiveTimeout]
  · simp [lunesWait, hsel, hpoll]
  · simp [podlWait, hsel11, hpoll, show trPending.attached 0 = true from rfl]

/-- Claim C2, counterexample. With base 60000 ms in unattended mode the
claimed effective deadline is 120 seconds, yet podl's wait gives up after
its grace sleep plus 30 polls (32 seconds here) and returns no token on a
trace whose token resolves at second 40 — well before the claimed
deadline. -/
theorem c2_counterexample :
    effectiveTimeout true 60000 / 1000 = 120
    ∧ trTok40.tokenVal 40 = "tok"
    ∧ podlWait true 60000 2 trTok40 = (TSResult.okTok none, 32)
    ∧ 32 < 120 := by decide

/-- Claim C3 (corrected). On expiry of the poll budget with no token:
podl returns no token in unattended mode and raises in interactive mode,
as the claim states; but lunes_login raises unconditionally, so in
unattended mode the lunes wait aborts with an error instead of returning
no token. -/
theorem c3_theorem (tr : PageTrace) (tm g : Nat)
    (hnoexit : ∀ t, ¬ exitsAt tr t) (hatt : tr.attached 0 = true) :
    (podlWait true tm g tr).1 = TSResult.okTok none
    ∧ (podlWait false tm g tr).1 = TSResult.err
    ∧ (lunesWait true tm g tr).1 = TSResult.err
    ∧ (lunesWait false tm g tr).1 = TSResult.err := by
  have hsel : ∀ f, selectorScan tr 0 (f + 1) = some 0 := selectorScan_zero tr hatt
  have hsel11 : selectorScan tr 0 11 = some 0 := hsel 10
  have hpoll := pollLoop_expired tr hnoexit
  refine ⟨?_, ?_, ?_, ?_⟩ <;> simp [podlWait, lunesWait, hatt, hsel, hsel11, hpoll, mapExit]

/-- Claim C3, witness. On the forever-pending trace with base 60000 ms
and a 2 second grace sleep, podl returns no token under CI and raises
interactively, while lunes raises in both environments. -/
theorem c3_witness :
    (podlWait true 60000 2 trPending).1 = TSResult.okTok none
    ∧ (podlWait false 60000 2 trPending).1 = TSResult.err
    ∧ (lunesWait true 60000 2 trPending).1 = TSResult.err
    ∧ (lunesWait false 60000 2 trPending).1 = TSResult.err :=
  c3_theorem trPending 60000 2 trPending_noexit rfl

/-- Claim C3, counterexample. In unattended mode with the deadline
expired and no token resolved, lunes_login's wait raises (the run
aborts); it does not return no token as the claim states. -/
theorem c3_counterexample :
    (lunesWait true 60000 2 trPending).1 = TSResult.err
    ∧ (lunesWait true 60000 2 trPending).1 ≠ TSResult.okTok none := by decide

/-- Claim C4 (corrected). When the hidden verification-token input does
not exist in the DOM, podl returns no token immediately (zero seconds
elapse, well within any grace window); but lunes_login has no absence
check at all: its selector wait runs for the full effective deadline and
then raises, so lunes neither returns promptly nor returns no token. -/
theorem c4_theorem (tr : PageTrace) (ci : Bool) (tm g : Nat)
    (habs : ∀ t, tr.attached t = false) :
    podlWait ci tm g tr = (TSResult.okTok none, 0)
    ∧ lunesWait ci tm g tr = (TSResult.err, effectiveTimeout ci tm / 1000) := by
  have hsel := selectorScan_noneAll tr habs
  constructor
  · simp [podlWait, habs 0]
  · simp [lunesWait, hsel]

/-- Claim C4, witness. On the never-attached trace with base 60000 ms,
podl returns no token at 0 seconds and lunes raises after the full
60 second deadline. -/
theorem c4_witness :
    podlWait false 60000 1 trAbsent = (TSResult.okTok none, 0)
    ∧ lunesWait false 60000 1 trAbsent = (TSResult.err, effectiveTimeout false 60000 / 1000) :=
  c4_theorem trAbsent false 60000 1 (fun _ => rfl)

/-- Claim C4, counterexample. With no token input ever in the DOM,
lunes_login's wait raises after the full 60 second deadline instead of
returning no token within a short grace window. -/
theorem c4_counterexample :
    lunesWait false 60000 1 trAbsent = (TSResult.err, 60)
    ∧ effectiveTimeout false 60000 / 1000 = 60
    ∧ (lunesWait false 60000 1 trAbsent).1 ≠ TSResult.okTok none := by decide

/-- Claim C9 (corrected). The challenge wait is bounded, but not by the
effective deadline: lunes_login may spend up to the full effective
timeout inside the selector wait and then the full poll budget again, so
its elapsed time is only bounded by twice the effective deadline plus the
grace sleep; podl is bounded by its 10 second selector window plus the
grace sleep plus its poll budget (30 seconds under CI, the deadline in
seconds otherwise). Every wait is explicitly bounded. -/
theorem c9_theorem : ∀ (ci : Bool) (tm g : Nat) (tr : PageTrace),
    (lunesWait ci tm g tr).2
      ≤ effectiveTimeout ci tm / 1000 + g + effectiveTimeout ci tm / 1000
    ∧ (podlWait ci tm g tr).2 ≤ 10 + g + (if ci then 30 else effectiveTimeout ci tm / 1000) := by
  intro ci tm g tr
  constructor
  · have hp := pollLoop_snd_le tr (effectiveTimeout ci tm / 1000)
    simp only [lunesWait]
    cases hsel : selectorScan tr 0 (effectiveTimeout ci tm / 1000 + 1) with
    | none => simp [hsel]
    | some a =>
      have ha := selectorScan_some_lt tr _ 0 a hsel
      have hpa := hp (a + g)
      simp [hsel]
      omega
  · simp only [podlWait]
    by_cases hat : tr.attached 0 = false
    · simp [hat]
    · simp only [hat, if_false]
      cases hsel : selectorScan tr 0 (10 + 1) with
      | none =>
        cases ci
        · simp [hsel]
          omega
        · simp [hsel]
      | some a =>
        have ha := selectorScan_some_lt tr _ 0 a hsel
        cases ci with
        | true =>
          have hpa := pollLoop_snd_le tr 30 (a + g)
          cases hr : (pollLoop tr (a + g) 30).1 <;> simp [hsel, hr] <;> omega
        | false =>
          have hpa := pollLoop_snd_le tr (effectiveTimeout false tm / 1000) (a + g)
          cases hr : (pollLoop tr (a + g) (effectiveTimeout false tm / 1000)).1 <;>
            simp [hsel, hr] <;> omega

/-- Claim C9, counterexample. With base 60000 ms in interactive mode the
effective deadline is 60 seconds, yet on a trace whose token input only
attaches at second 59 the lunes wait blocks for 120 seconds (59 seconds
of selector wait, 1 second of grace, then the full 60 poll budget). -/
theorem c9_counterexample :
    (lunesWait false 60000 1 trLate).2 = 120
    ∧ effectiveTimeout false 60000 / 1000 = 60
    ∧ effectiveTimeout false 60000 / 1000 < (lunesWait false 60000 1 trLate).2 := by decide

/-- Claim C5 (confirmed). The polling loop exits at the first poll at
which an exit condition holds, checking the conditions in source order:
a closed page yields the no-token exit, a url no longer containing the
login segment yields the no-token exit immediately rather than at the
deadline, and otherwise a non-empty token input value is returned as that
exact token. Lifted through the lunes wait (when the input is attached at
second 0 and the poll budget is the effective deadline), the exit becomes
the returned value at elapsed second grace-plus-first-exit. -/
theorem c5_theorem (tr : PageTrace) (g fuel i : Nat) (hi : i < fuel)
    (hbef : ∀ j, j < i → ¬ exitsAt tr (g + j)) (hex : exitsAt tr (g + i)) :
    pollLoop tr g fuel = (exitValueAt tr (g + i), i)
    ∧ (∀ (ci : Bool) (tm : Nat), tr.attached 0 = true →
        fuel = effectiveTimeout ci tm / 1000 →
        lunesWait ci tm g tr = (mapExit (exitValueAt tr (g + i)), g + i)) := by
  have hfirst := pollLoop_first tr i g fuel hi hbef hex
  refine ⟨hfirst, ?_⟩
  intro ci tm hatt hfuel
  have hsel : selectorScan tr 0 (effectiveTimeout ci tm / 1000 + 1) = some 0 :=
    selectorScan_zero tr hatt _
  simp only [lunesWait, hsel]
  rw [← hfuel]
  simp [hfirst]

/-- Claim C5, witness. On a trace whose token resolves exactly at second
5, with a 3 second grace sleep the loop exits at its third poll with the
exact token, and the lunes wait returns that token at elapsed second 5. -/
theorem c5_witness :
    pollLoop trTokenAt5 3 60 = (PollExit.tokenE "tok123", 2)
    ∧ lunesWait false 60000 3 trTokenAt5 = (TSResult.okTok (some "tok123"), 5) := by
  have h := c5_theorem trTokenAt5 3 60 2 (by omega)
    (by
      intro j hj
      have hj2 : j = 0 ∨ j = 1 := by omega
      rcases hj2 with rfl | rfl <;> decide)
    (by decide)
  exact ⟨h.1.trans (by decide), (h.2 false 60000 rfl (by decide)).trans (by decide)⟩

/-- Claim C6 (confirmed). With no step raising, the classifier of login()
declares success exactly when the post-submission url no longer contains
the login segment, and on success the full cookie jar of the context is
the returned payload; a url still containing the segment yields the
failure value. -/
theorem c6_theorem (env : LoginEnv) (h0 : env.failStep = none)
    (h1 : env.termCookiesRaises = false) (h2 : env.termShotRaises = false)
    (h3 : env.termTraceRaises = false) (h4 : env.termCloseRaises = false) :
    ((lunesLogin env).outcome = some env.cookieJar
      ↔ strContainsSub env.urlAfterSubmit loginSeg = false)
    ∧ (strContainsSub env.urlAfterSubmit loginSeg = true → (lunesLogin env).outcome = none) := by
  cases hB : strContainsSub env.urlAfterSubmit loginSeg
  · simp [lunesLogin, h0, h1, h2, h3, h4, hB]
  · simp [lunesLogin, h0, h1, h2, h3, h4, hB]

/-- Claim C6, witness. A clean run whose post-submission url left the
login route returns exactly the context cookie jar. -/
theorem c6_witness : (lunesLogin okRunEnv).outcome = some ["sid=1"] := by
  have h := c6_theorem okRunEnv rfl rfl rfl rfl rfl
  exact h.1.mpr (by decide)

/-- Claim C1 (corrected). Every run of login() produces exactly one
Outcome (each control path returns exactly once); and provided a browser
was launched and none of the terminal or cleanup steps themselves raise,
the browser is closed exactly once on every exit path — classified
success, classified failure, and unhandled exception. Without that
proviso, the invariant fails: a raise in an earlier cleanup step skips
the close entirely (see the counterexample). -/
theorem c1_theorem : ∀ env : LoginEnv,
    (lunesLogin env).outcomes = 1
    ∧ (env.termCookiesRaises = false → env.termShotRaises = false →
       env.termTraceRaises = false → env.termCloseRaises = false →
       env.cleanShotRaises = false → env.cleanTraceRaises = false →
       env.cleanCloseRaises = false → env.failStep ≠ some FlowStep.launch →
       (lunesLogin env).closeTried = 1 ∧ (lunesLogin env).closeDone = 1) := by
  intro env
  constructor
  · cases hfs : env.failStep with
    | none =>
      simp only [lunesLogin, hfs]
      split_ifs <;> simp [errorReturn]
    | some s => simp [lunesLogin, hfs, errorReturn]
  · intro h1 h2 h3 h4 h5 h6 h7 h8
    cases hfs : env.failStep with
    | none =>
      simp only [lunesLogin, hfs]
      split_ifs <;> simp_all [errorReturn, exceptCleanup]
    | some s =>
      cases s with
      | launch => exact absurd hfs h8
      | newContext =>
        simp [lunesLogin, hfs, errorReturn, exceptCleanup, pageAt, contextAt, browserAt,
          h5, h6, h7]
      | traceStart =>
        simp [lunesLogin, hfs, errorReturn, exceptCleanup, pageAt, contextAt, browserAt,
          h5, h6, h7]
      | newPage =>
        simp [lunesLogin, hfs, errorReturn, exceptCleanup, pageAt, contextAt, browserAt,
          h5, h6, h7]
      | interact =>
        simp [lunesLogin, hfs, errorReturn, exceptCleanup, pageAt, contextAt, browserAt,
          h5, h6, h7]

/-- Claim C1, witness. A clean successful run produces one Outcome and
closes the browser exactly once. -/
theorem c1_witness :
    (lunesLogin okRunEnv).outcomes = 1
    ∧ (lunesLogin okRunEnv).closeTried = 1
    ∧ (lunesLogin okRunEnv).closeDone = 1 := by
  have h := c1_theorem okRunEnv
  exact ⟨h.1, (h.2 rfl rfl rfl rfl rfl rfl rfl (by decide)).1,
    (h.2 rfl rfl rfl rfl rfl rfl rfl (by decide)).2⟩

/-- Claim C1, counterexample. A run whose body raises during interaction
and whose error-path screenshot itself raises returns its one Outcome
with the browser never closed — the close is not even attempted — so the
session is not released on this unhandled-exception exit path. -/
theorem c1_counterexample :
    (lunesLogin badCleanupEnv).outcomes = 1
    ∧ (lunesLogin badCleanupEnv).closeTried = 0
    ∧ (lunesLogin badCleanupEnv).closeDone = 0 := by decide

/-- Claim C8 (corrected). The error path attempts the diagnostic
screenshot (skipped exactly when the page is absent or already closed),
then trace finalization (skipped when no context exists), then session
release, in that order — but the three steps sit under a single guard,
not independent ones: a raise in the screenshot skips both later steps,
and a raise in the trace stop skips the close. The guard only prevents a
cleanup failure from propagating. -/
theorem c8_theorem : ∀ hasPage pageClosed hasContext hasBrowser shotR traceR closeR : Bool,
    (exceptCleanup hasPage pageClosed hasContext hasBrowser shotR traceR closeR).shotTried
      = (hasPage && !pageClosed)
    ∧ (exceptCleanup hasPage pageClosed hasContext hasBrowser shotR traceR closeR).traceTried
      = (hasContext && !(hasPage && !pageClosed && shotR))
    ∧ (exceptCleanup hasPage pageClosed hasContext hasBrowser shotR traceR closeR).closeTried
      = (hasBrowser && !(hasPage && !pageClosed && shotR) && !(hasContext && traceR))
    ∧ (exceptCleanup hasPage pageClosed hasContext hasBrowser shotR traceR closeR).closeDone
      = ((exceptCleanup hasPage pageClosed hasContext hasBrowser shotR traceR closeR).closeTried
          && !closeR) := by
  decide

/-- Claim C8, counterexample. With the page open, a context and a browser
present, a raising screenshot prevents both the trace finalization and
the session release from being attempted — refuting the claim that each
step is wrapped independently. -/
theorem c8_counterexample :
    (exceptCleanup true false true true true false false).shotTried = true
    ∧ (exceptCleanup true false true true true false false).traceTried = false
    ∧ (exceptCleanup true false true true true false false).closeTried = false := by decide

/-- Claim C7 (corrected). In podl, if the submit control reads as
disabled then in unattended mode the gate polls up to 10 times for it to
become enabled and, if it stays disabled for the whole window, the run
fails with no click attempted; in interactive mode no enable-polling
happens and the click proceeds. lunes_login, however, has no gate at all:
it clicks regardless of the disabled state (see the counterexample). -/
theorem c7_theorem (d : Nat → Bool) (h0 : d 0 = true)
    (hall : ∀ i, 1 ≤ i → i ≤ 10 → d i = true) :
    podlGate true false d = { clicked := false, enablePolls := 10 }
    ∧ (∀ ar : Bool, (podlGate false ar d).clicked = true
        ∧ (podlGate false ar d).enablePolls = 0) := by
  constructor
  · have h := enableScan_all d 10 0 (fun j hj1 hj2 => hall j (by omega) (by omega))
    simp [podlGate, h0, h]
  · intro ar
    cases ar
    · cases hd : d 0 <;> simp [podlGate, hd]
    · simp [podlGate]

/-- Claim C7, witness. A control disabled at every second makes podl's
unattended gate fail after 10 polls with no click, while interactively no
polling happens and the click proceeds. -/
theorem c7_witness :
    podlGate true false (fun _ => true) = { clicked := false, enablePolls := 10 }
    ∧ (podlGate false false (fun _ => true)).clicked = true
    ∧ (podlGate false false (fun _ => true)).enablePolls = 0 := by
  have h := c7_theorem (fun _ => true) rfl (fun _ h1 h2 => rfl)
  exact ⟨h.1, (h.2 false).1, (h.2 false).2⟩

/-- Claim C7, counterexample. In lunes_login, with the submit control
disabled throughout and in unattended mode, the click is still attempted
and no enable-polling occurs — the run is not classified as a failure
without a click, refuting the claim for that script. -/
theorem c7_counterexample :
    (lunesGate true (fun _ => true)).clicked = true
    ∧ (lunesGate true (fun _ => true)).enablePolls = 0 := by decide

/-- Claim C10 (confirmed). main() exits 0 exactly when the credentials
are non-empty and login() returned a non-empty cookie list; in
particular, a successful classification that read an empty cookie jar is
reported as failure (exit 1), because success is tested by Python
truthiness of the returned list. -/
theorem c10_theorem : ∀ (e p : String) (r : Option (List String)),
    (lunesMain e p r = 0 ↔ e ≠ "" ∧ p ≠ "" ∧ ∃ cs, r = some cs ∧ cs ≠ [])
    ∧ lunesMain e p (some []) = 1 := by
  intro e p r
  constructor
  · unfold lunesMain
    by_cases he : e = ""
    · simp [he]
    · by_cases hp : p = ""
      · simp [he, hp]
      · cases r with
        | none => simp [he, hp, optTruthy]
        | some l =>
          cases l with
          | nil => simp [he, hp, optTruthy]
          | cons a as => simp [he, hp, optTruthy]
  · unfold lunesMain
    by_cases he : e = ""
    · simp [he]
    · by_cases hp : p = ""
      · simp [he, hp]
      · simp [he, hp, optTruthy]

/-- Claim C10, witness. With credentials set, a one-cookie result exits 0
and an empty cookie list exits 1. -/
theorem c10_witness :
    lunesMain "a" "b" (some ["x"]) = 0 ∧ lunesMain "a" "b" (some []) = 1 := by
  have h := c10_theorem "a" "b" (some ["x"])
  exact ⟨h.1.mpr ⟨by decide, by decide, ["x"], rfl, by decide⟩, h.2⟩
